import Mathlib

set_option autoImplicit false

/-!
Verification development for the certificate-authentication backend.

The definitions below are a shallow embedding of the Python sources:

* `backend/app/services/fusion_engine.py` — fusion weights, risk scoring and
  the conservative decision engine (`_make_verification_decision`,
  `_check_tamper_rejection_criteria`, `_check_signature_rejection_criteria`).
* `backend/app/services/layer2_forensics.py` — forensic pipeline
  (`analyze_image`, `_calculate_tamper_probability`, `_classify_tamper_types`,
  `_merge_overlapping_regions`).
* `backend/app/services/qr_integrity.py` and `backend/app/utils/helpers.py` —
  signed QR payloads (`_sign_qr_payload`, `_verify_qr_signature`,
  `_verify_issuer`, `verify_qr_integrity`, `_normalize_date`, `sign_data`,
  `verify_signature`).

Python floats are embedded as rationals (ℚ); every constant appearing in the
sources (0.85, 0.8, 0.25, …) is exactly representable in binary floating
point or only ever compared against sums of such constants in ways where the
rational and floating comparison agree on the values the claims quantify
over, so ℚ is a faithful carrier for the decision logic.
-/

namespace Newmate

/-- Status of certificate verification (`VerificationStatus` in `models.py`). -/
inductive VerificationStatus where
  | pending
  | verified
  | failed
  | requiresReview
  | tampered
  | signatureInvalid
deriving DecidableEq, Repr

/-- Risk level assessment (`RiskLevel` in `models.py`). -/
inductive RiskLevel where
  | low
  | medium
  | high
  | critical
deriving DecidableEq, Repr

/-- Types of tampering detected (`TamperType` in `models.py`). -/
inductive TamperType where
  | copyMove
  | doubleCompression
  | splicing
  | resampling
  | noiseInconsistency
  | elaAnomaly
  | hashMismatch
deriving DecidableEq, Repr

/-- A suspicious-region bounding box `[x1, y1, x2, y2]` as used by
`_merge_overlapping_regions` in `layer2_forensics.py`. -/
structure Region where
  x1 : Int
  y1 : Int
  x2 : Int
  y2 : Int
deriving DecidableEq, Repr

/-- Forensic analysis results (`ForensicAnalysis` in `models.py`), with the
same field defaults as the pydantic model. -/
structure ForensicAnalysis where
  copy_move_score : ℚ := 0
  ela_score : ℚ := 0
  double_compression_score : ℚ := 0
  noise_analysis_score : ℚ := 0
  sha256_hash : Option String := none
  perceptual_hash : Option String := none
  hash_match : Option Bool := none
  suspicious_regions : List Region := []
  tamper_types : List TamperType := []
  tamper_probability : ℚ := 0
deriving DecidableEq, Repr

/-- Signature and seal verification results (`SignatureVerification` in
`models.py`); only the fields read by the fusion engine are embedded. -/
structure SignatureVerification where
  seals_detected : Nat := 0
  signatures_detected : Nat := 0
  seal_authenticity_score : ℚ := 0
  signature_authenticity_score : ℚ := 0
  qr_signature_valid : Option Bool := none
deriving DecidableEq, Repr

/-- QR code integrity and signature verification result (`QRIntegrityCheck`
in `models.py`), with the same field defaults.  The decoded payload is
attached later once the JSON model is available, so the boolean core is
embedded here; `qr_payload` and `error_message` fields follow the model. -/
structure QRIntegrityCheckCore where
  qr_detected : Bool := false
  qr_decoded : Bool := false
  signature_valid : Bool := false
  issuer_verified : Bool := false
  certificate_id_match : Bool := false
  issue_date_match : Bool := false
deriving DecidableEq, Repr

/-- Results from the verification layers (`LayerResults` in `models.py`);
`layer1_extraction` is not read by any of the embedded decision functions
and is omitted. -/
structure LayerResults where
  layer2_forensics : ForensicAnalysis
  layer3_signatures : SignatureVerification
  qr_integrity : QRIntegrityCheckCore
deriving DecidableEq, Repr

/-- The `db_check` dictionary consumed by the decision engine; only
`match_found` influences the embedded functions. -/
structure DbCheck where
  match_found : Bool := false
deriving DecidableEq, Repr

/-- Risk scoring output (`RiskScore` in `models.py`); only the fields read by
`_make_verification_decision` are embedded. -/
structure RiskScore where
  overall_score : ℚ := 0
  confidence : ℚ := 0
  risk_level : RiskLevel
  risk_factors : List String := []
deriving DecidableEq, Repr

/-- Decision threshold `auto_approve` from `EnhancedFusionEngine.__init__`. -/
def autoApproveThreshold : ℚ := 85 / 100

/-- Decision threshold `auto_reject` from `EnhancedFusionEngine.__init__`. -/
def autoRejectThreshold : ℚ := 30 / 100

/-- Embedding of `_check_tamper_rejection_criteria` in `fusion_engine.py`:
high tamper probability, an explicit hash mismatch, or at least three
recorded tamper types force rejection. -/
def check_tamper_rejection_criteria (lr : LayerResults) : Bool :=
  if lr.layer2_forensics.tamper_probability > 8 / 10 then true
  else if lr.layer2_forensics.hash_match = some false then true
  else if 3 ≤ lr.layer2_forensics.tamper_types.length then true
  else false

/-- Embedding of `_check_signature_rejection_criteria` in `fusion_engine.py`. -/
def check_signature_rejection_criteria (lr : LayerResults) : Bool :=
  if lr.qr_integrity.qr_detected ∧ lr.qr_integrity.qr_decoded ∧
      ¬lr.qr_integrity.signature_valid then true
  else if lr.layer3_signatures.seals_detected = 0 ∧
      lr.layer3_signatures.signatures_detected = 0 ∧
      ¬lr.qr_integrity.qr_detected then true
  else false

/-- Embedding of `_make_verification_decision` in `fusion_engine.py`.
Returns the status, the `requires_manual_review` flag and the escalation
reasons; the human-readable `decision_rationale` string (which only
interpolates the scores into fixed text) is not modelled. -/
def make_verification_decision (risk_score : RiskScore) (lr : LayerResults)
    (db_check : DbCheck) : VerificationStatus × Bool × List String :=
  if check_tamper_rejection_criteria lr then
    (VerificationStatus.tampered, true,
      ["Tampering detected", "Requires expert review"])
  else if check_signature_rejection_criteria lr then
    (VerificationStatus.signatureInvalid, true,
      ["Invalid digital signatures", "QR verification failed"])
  else if risk_score.overall_score ≥ autoApproveThreshold ∧
      risk_score.confidence ≥ 8 / 10 then
    if risk_score.risk_factors = [] then
      (VerificationStatus.verified, false, [])
    else
      (VerificationStatus.requiresReview, true,
        ["Risk factors present despite high score"])
  else if risk_score.overall_score ≤ autoRejectThreshold then
    (VerificationStatus.failed, true, ["Low confidence score"])
  else
    (VerificationStatus.requiresReview, true,
      (if risk_score.confidence < 6 / 10 then ["Low confidence in assessment"] else []) ++
      (if ¬db_check.match_found then ["No database match"] else []) ++
      (if risk_score.risk_level = RiskLevel.high ∨ risk_score.risk_level = RiskLevel.critical
        then ["High risk level detected"] else []))

/-- Order of approval on the three score-driven statuses
(`Verified > RequiresReview > Failed`); statuses produced only by the
hard-reject rules are ranked lowest. -/
def statusRank : VerificationStatus → Nat
  | VerificationStatus.verified => 2
  | VerificationStatus.requiresReview => 1
  | _ => 0

/-- Embedding of `_calculate_tamper_probability` in `layer2_forensics.py`:
fixed per-detector weights, capped at one. -/
def calculate_tamper_probability (copy_move_score ela_score compression_score
    noise_score resampling_score jpeg_score : ℚ) : ℚ :=
  min
    (copy_move_score * (25 / 100) +
      ela_score * (20 / 100) +
      compression_score * (15 / 100) +
      noise_score * (20 / 100) +
      resampling_score * (10 / 100) +
      jpeg_score * (10 / 100))
    1

/-! ### JSON values and `json.dumps` serialization -/

/-- JSON values as produced by `json.loads` and consumed by `json.dumps`.
Objects are association lists in the insertion order of the Python dict; a
well-formed decoded dict has unique keys.  Cryptographic material that the
Python code passes around as opaque base64/PEM strings is embedded
symbolically: `sigBlob k m` stands for the base64 ECDSA-P256/SHA256
signature produced with the private key identified by `k` over the exact
serialized byte string `m`, and `pubKeyBlob k` stands for the PEM encoding
of the matching public key. -/
inductive JsonVal where
  | null
  | bool (b : Bool)
  | num (n : Int)
  | str (s : String)
  | arr (items : List JsonVal)
  | obj (fields : List (String × JsonVal))
  | sigBlob (keyId : Nat) (msg : String)
  | pubKeyBlob (keyId : Nat)

/-- JSON string escaping used by `json.dumps`, restricted to the quote and
backslash escapes; payload strings in this development contain no control
characters or non-ASCII text, where `ensure_ascii` would also rewrite. -/
def escapeChar (c : Char) : String :=
  if c = '"' then "\\\"" else if c = '\\' then "\\\\" else String.singleton c

/-- Quote a string as a JSON string literal. -/
def jsonQuote (s : String) : String :=
  "\"" ++ String.join (s.data.map escapeChar) ++ "\""

/-- Join rendered items with a separator, as the `json` encoder does. -/
def joinStr (sep : String) : List String → String
  | [] => ""
  | [x] => x
  | x :: xs => x ++ sep ++ joinStr sep xs

/-- The `separators=(item, kv)` argument of `json.dumps`. -/
structure Separators where
  item : String
  kv : String

/-- Rendering of the symbolic base64 signature blob as a string. -/
def sigRender (keyId : Nat) (msg : String) : String :=
  "b64sig." ++ toString keyId ++ "." ++ msg

/-- Rendering of the symbolic PEM public key blob as a string. -/
def pubRender (keyId : Nat) : String :=
  "pem." ++ toString keyId

/-- With `sort_keys=True` the encoder emits `sorted(dct.items())`; dict keys
are unique, so sorting the rendered pairs by key gives the same output.
Insertion sort by `≤` on the key is a stable sort and therefore agrees with
Python sorting. -/
def sortPairs (kvs : List (String × String)) : List (String × String) :=
  List.insertionSort (fun a b => a.1 ≤ b.1) kvs

mutual

/-- Embedding of `json.dumps(v, sort_keys=True, separators=sep)`. -/
def dumpVal (sep : Separators) : JsonVal → String
  | JsonVal.null => "null"
  | JsonVal.bool true => "true"
  | JsonVal.bool false => "false"
  | JsonVal.num n => toString n
  | JsonVal.str s => jsonQuote s
  | JsonVal.arr items => "[" ++ joinStr sep.item (dumpItems sep items) ++ "]"
  | JsonVal.obj fields =>
      "\x7b" ++
        joinStr sep.item
          ((sortPairs (dumpFields sep fields)).map
            (fun kv => jsonQuote kv.1 ++ sep.kv ++ kv.2)) ++
        "\x7d"
  | JsonVal.sigBlob k m => jsonQuote (sigRender k m)
  | JsonVal.pubKeyBlob k => jsonQuote (pubRender k)

/-- Render each array item. -/
def dumpItems (sep : Separators) : List JsonVal → List String
  | [] => []
  | v :: vs => dumpVal sep v :: dumpItems sep vs

/-- Render each object value, keeping the key for sorting. -/
def dumpFields (sep : Separators) : List (String × JsonVal) → List (String × String)
  | [] => []
  | kv :: kvs => (kv.1, dumpVal sep kv.2) :: dumpFields sep kvs

end

/-- Embedding of `json.dumps(v, sort_keys=True, separators=(",", ":"))`
as used at `qr_integrity.py:218`, `qr_integrity.py:326` and
`public_verification.py:226`. -/
def dumps_sorted_compact (v : JsonVal) : String := dumpVal ⟨",", ":"⟩ v

/-- Embedding of `json.dumps(v, sort_keys=True)` with the default
separators `(", ", ": ")`, as used at `fusion_engine.py:416` and
`layer3_signatures.py:609`. -/
def dumps_sorted_default (v : JsonVal) : String := dumpVal ⟨", ", ": "⟩ v

/-! ### ECDSA signing helpers (`utils/helpers.py`)

The `cryptography` library primitives are embedded as an idealized
signature scheme: a signature is bound to the identity of the signing key
and to the exact message bytes, and verification succeeds exactly when both
match.  This captures ECDSA correctness (sign-then-verify succeeds) and
unforgeability-style binding (a signature over different bytes or under a
different key fails), which is what the source relies on. -/

/-- A P-256 private key, identified symbolically. -/
structure PrivKey where
  kid : Nat
deriving DecidableEq, Repr

/-- Embedding of `sign_data(data, private_key_pem)` in `helpers.py` (with a
key supplied): returns the base64 signature and the PEM public key derived
from the private key. -/
def sign_data (data : String) (private_key : PrivKey) : JsonVal × JsonVal :=
  (JsonVal.sigBlob private_key.kid data, JsonVal.pubKeyBlob private_key.kid)

/-- Embedding of `verify_signature(data, signature_b64, public_key_pem)` in
`helpers.py`: any exception while loading the key or verifying (including a
value that is not a signature or not a PEM key at all) returns `false`. -/
def verify_signature (data : String) (signature public_key : JsonVal) : Bool :=
  match signature, public_key with
  | JsonVal.sigBlob k m, JsonVal.pubKeyBlob k2 => k == k2 && m == data
  | _, _ => false

/-! ### QR integrity service (`qr_integrity.py`) -/

/-- Python truthiness of a decoded JSON value (`if not x` checks). -/
def jsonTruthy : JsonVal → Bool
  | JsonVal.null => false
  | JsonVal.bool b => b
  | JsonVal.num n => n != 0
  | JsonVal.str s => s ≠ ""
  | JsonVal.arr items => !items.isEmpty
  | JsonVal.obj fields => !fields.isEmpty
  | JsonVal.sigBlob _ _ => true
  | JsonVal.pubKeyBlob _ => true

/-- First-match lookup in an association list (dict lookup; decoded dicts
have unique keys). -/
def lookupAssoc {α : Type} : List (String × α) → String → Option α
  | [], _ => none
  | kv :: kvs, key => if kv.1 = key then some kv.2 else lookupAssoc kvs key

/-- Dict lookup `v[key]` / `v.get(key)` on a JSON value; `none` when the
value is not an object or the key is absent. -/
def jsonGet (v : JsonVal) (key : String) : Option JsonVal :=
  match v with
  | JsonVal.obj fields => lookupAssoc fields key
  | _ => none

/-- One entry of `self.institution_keys` in `QRIntegrityService`. -/
structure InstitutionKeyEntry where
  private_key : PrivKey
  public_key : JsonVal
  key_id : String

/-- The `issuer_id → keys` registry `self.institution_keys`. -/
abbrev Registry := List (String × InstitutionKeyEntry)

/-- Embedding of `_sign_qr_payload(payload, institution_keys)` in
`qr_integrity.py`: serialize the payload canonically, sign it, and package
the signed payload dict.  `signed_at` stands for the
`datetime.utcnow().isoformat()` timestamp. -/
def sign_qr_payload (payload : JsonVal) (institution_keys : InstitutionKeyEntry)
    (signed_at : String) : JsonVal :=
  let payload_str := dumps_sorted_compact payload
  let sig_pub := sign_data payload_str institution_keys.private_key
  JsonVal.obj
    [("payload", payload),
     ("signature", sig_pub.1),
     ("public_key", sig_pub.2),
     ("key_id", JsonVal.str institution_keys.key_id),
     ("algorithm", JsonVal.str "ECDSA"),
     ("signed_at", JsonVal.str signed_at)]

/-- The public-key resolution inside `_verify_qr_signature`: use the
embedded `public_key` when truthy, otherwise fall back to the issuer
registry; an unknown issuer yields no key. -/
def resolve_public_key (qr_payload payload : JsonVal) (institution_keys : Registry) :
    Option JsonVal :=
  let fallback : Option JsonVal :=
    match jsonGet payload "issuer_id" with
    | some (JsonVal.str issuer_id) =>
        match lookupAssoc institution_keys issuer_id with
        | some entry => some entry.public_key
        | none => none
    | _ => none
  match jsonGet qr_payload "public_key" with
  | some pk => if jsonTruthy pk then some pk else fallback
  | none => fallback

/-- Embedding of `_verify_qr_signature(qr_payload)` in `qr_integrity.py`:
require `signature` and `payload` keys, resolve a public key, re-serialize
the payload canonically and verify.  All failure paths return `false`. -/
def verify_qr_signature (qr_payload : JsonVal) (institution_keys : Registry) : Bool :=
  match jsonGet qr_payload "signature", jsonGet qr_payload "payload" with
  | some signature, some payload =>
      match resolve_public_key qr_payload payload institution_keys with
      | some public_key =>
          verify_signature (dumps_sorted_compact payload) signature public_key
      | none => false
  | _, _ => false

/-- Embedding of `_verify_issuer(qr_payload)` in `qr_integrity.py`: the
issuer id must be present, truthy, and a key of the trusted registry. -/
def verify_issuer (qr_payload : JsonVal) (institution_keys : Registry) : Bool :=
  let payload := (jsonGet qr_payload "payload").getD (JsonVal.obj [])
  match jsonGet payload "issuer_id" with
  | some (JsonVal.str issuer_id) =>
      if issuer_id = "" then false
      else (lookupAssoc institution_keys issuer_id).isSome
  | _ => false

/-! ### Date normalization (`_normalize_date` in `qr_integrity.py`)

`datetime.strptime` compiles each format into an anchored regular
expression (`_strptime.TimeRE`: `%d ↦ 3[0-1]|[1-2]\d|0[1-9]|[1-9]| [1-9]`,
`%m ↦ 1[0-2]|0[1-9]|[1-9]`, `%Y ↦ \d\d\d\d`), requires the whole string to
be consumed, and then validates the captured numbers by constructing a
`datetime`.  `strftime("%Y-%m-%d")` renders month and day zero-padded to
two digits and the year as an unpadded decimal (glibc), the year being
confined to `1 ≤ y ≤ 9999` by the four-digit `%Y` pattern and `MINYEAR`. -/

/-- ASCII whitespace stripped by `str.strip()` (the payloads of interest
contain no non-ASCII whitespace). -/
def isSpaceChar (c : Char) : Bool :=
  c = ' ' || c = '\t' || c = '\n' || c = '\r' || c = '\x0b' || c = '\x0c'

/-- Embedding of `str.strip()`. -/
def pyStrip (s : String) : String :=
  ⟨((s.data.dropWhile isSpaceChar).reverse.dropWhile isSpaceChar).reverse⟩

/-- ASCII digit test (the regex `\d` with `re.ASCII` semantics on these
patterns). -/
def isDigitChar (c : Char) : Bool := '0' ≤ c && c ≤ '9'

/-- Numeric value of a digit character. -/
def digitVal (c : Char) : Nat := c.toNat - 48

/-- Candidates of the `%d` pattern `3[0-1]|[1-2]\d|0[1-9]|[1-9]| [1-9]` in
regex alternation order, each with the remaining input. -/
def dayMatches : List Char → List (Nat × List Char)
  | c1 :: c2 :: rest =>
      (if (c1 = '3' && (c2 = '0' || c2 = '1'))
          || ((c1 = '1' || c1 = '2') && isDigitChar c2)
          || (c1 = '0' && isDigitChar c2 && !(c2 = '0')) then
        [(digitVal c1 * 10 + digitVal c2, rest)]
      else []) ++
      (if isDigitChar c1 && !(c1 = '0') then [(digitVal c1, c2 :: rest)] else []) ++
      (if c1 = ' ' && isDigitChar c2 && !(c2 = '0') then [(digitVal c2, rest)] else [])
  | [c1] => if isDigitChar c1 && !(c1 = '0') then [(digitVal c1, [])] else []
  | [] => []

/-- Candidates of the `%m` pattern `1[0-2]|0[1-9]|[1-9]`. -/
def monthMatches : List Char → List (Nat × List Char)
  | c1 :: c2 :: rest =>
      (if (c1 = '1' && (c2 = '0' || c2 = '1' || c2 = '2'))
          || (c1 = '0' && isDigitChar c2 && !(c2 = '0')) then
        [(digitVal c1 * 10 + digitVal c2, rest)]
      else []) ++
      (if isDigitChar c1 && !(c1 = '0') then [(digitVal c1, c2 :: rest)] else [])
  | [c1] => if isDigitChar c1 && !(c1 = '0') then [(digitVal c1, [])] else []
  | [] => []

/-- The `%Y` pattern `\d\d\d\d`: exactly four digits. -/
def yearMatches : List Char → Option (Nat × List Char)
  | c1 :: c2 :: c3 :: c4 :: rest =>
      if isDigitChar c1 && isDigitChar c2 && isDigitChar c3 && isDigitChar c4 then
        some (((digitVal c1 * 10 + digitVal c2) * 10 + digitVal c3) * 10 + digitVal c4,
          rest)
      else none
  | _ => none

/-- A literal character of the format string. -/
def expectChar (c : Char) : List Char → Option (List Char)
  | d :: rest => if d = c then some rest else none
  | [] => none

/-- First successful alternative, in order — the backtracking of the regex
engine over a candidate list. -/
def firstSome {α β : Type} (f : α → Option β) : List α → Option β
  | [] => none
  | x :: xs =>
      match f x with
      | some r => some r
      | none => firstSome f xs

/-- Anchored match (with backtracking and the `unconverted data remains`
check) of the format `%Y-%m-%d`, returning `(year, month, day)`. -/
def matchYMD (s : List Char) : Option (Nat × Nat × Nat) :=
  match yearMatches s with
  | some yr =>
      match expectChar '-' yr.2 with
      | some r1 =>
          firstSome (fun mc =>
            match expectChar '-' mc.2 with
            | some r2 =>
                firstSome (fun dc =>
                  if dc.2 = [] then some (yr.1, mc.1, dc.1) else none)
                  (dayMatches r2)
            | none => none) (monthMatches r1)
      | none => none
  | none => none

/-- Anchored match of `%d/%m/%Y`. -/
def matchDMYslash (s : List Char) : Option (Nat × Nat × Nat) :=
  firstSome (fun dc =>
    match expectChar '/' dc.2 with
    | some r1 =>
        firstSome (fun mc =>
          match expectChar '/' mc.2 with
          | some r2 =>
              match yearMatches r2 with
              | some yr => if yr.2 = [] then some (yr.1, mc.1, dc.1) else none
              | none => none
          | none => none) (monthMatches r1)
    | none => none) (dayMatches s)

/-- Anchored match of `%m/%d/%Y`. -/
def matchMDYslash (s : List Char) : Option (Nat × Nat × Nat) :=
  firstSome (fun mc =>
    match expectChar '/' mc.2 with
    | some r1 =>
        firstSome (fun dc =>
          match expectChar '/' dc.2 with
          | some r2 =>
              match yearMatches r2 with
              | some yr => if yr.2 = [] then some (yr.1, mc.1, dc.1) else none
              | none => none
          | none => none) (dayMatches r1)
    | none => none) (monthMatches s)

/-- Anchored match of `%d-%m-%Y`. -/
def matchDMYdash (s : List Char) : Option (Nat × Nat × Nat) :=
  firstSome (fun dc =>
    match expectChar '-' dc.2 with
    | some r1 =>
        firstSome (fun mc =>
          match expectChar '-' mc.2 with
          | some r2 =>
              match yearMatches r2 with
              | some yr => if yr.2 = [] then some (yr.1, mc.1, dc.1) else none
              | none => none
          | none => none) (monthMatches r1)
    | none => none) (dayMatches s)

/-- Gregorian leap-year rule used by `datetime`. -/
def isLeapYear (y : Nat) : Bool := (y % 4 = 0 && !(y % 100 = 0)) || y % 400 = 0

/-- Days in a month as validated by the `datetime` constructor. -/
def daysInMonth (y m : Nat) : Nat :=
  if m = 2 then (if isLeapYear y then 29 else 28)
  else if m = 4 || m = 6 || m = 9 || m = 11 then 30
  else 31

/-- Range validation performed by constructing `datetime(year, month, day)`;
failure raises the `ValueError` caught by the format loop. -/
def validDate (y m d : Nat) : Bool :=
  1 ≤ y && y ≤ 9999 && 1 ≤ m && m ≤ 12 && 1 ≤ d && d ≤ daysInMonth y m

/-- The four formats tried by `_normalize_date`, in source order. -/
inductive DateFormat where
  | ymd
  | dmySlash
  | mdySlash
  | dmyDash
deriving DecidableEq, Repr

/-- Embedding of `datetime.strptime(s, fmt)` for the four formats: regex
match, then `datetime` validation; `none` is a `ValueError`. -/
def strptime (fmt : DateFormat) (s : List Char) : Option (Nat × Nat × Nat) :=
  let r :=
    match fmt with
    | DateFormat.ymd => matchYMD s
    | DateFormat.dmySlash => matchDMYslash s
    | DateFormat.mdySlash => matchMDYslash s
    | DateFormat.dmyDash => matchDMYdash s
  match r with
  | some ymd3 => if validDate ymd3.1 ymd3.2.1 ymd3.2.2 then some ymd3 else none
  | none => none

/-- The digit character for a value below ten. -/
def digitChar (k : Nat) : Char := Char.ofNat (48 + k)

/-- Two-digit zero-padded rendering (`%m` and `%d`; arguments are at most
31). -/
def pad2 (n : Nat) : List Char := [digitChar (n / 10), digitChar (n % 10)]

/-- Unpadded decimal rendering of `%Y` (glibc) on the validated range
`1 ≤ y ≤ 9999`. -/
def yearChars (y : Nat) : List Char :=
  if y < 10 then [digitChar y]
  else if y < 100 then [digitChar (y / 10), digitChar (y % 10)]
  else if y < 1000 then [digitChar (y / 100), digitChar (y / 10 % 10), digitChar (y % 10)]
  else [digitChar (y / 1000), digitChar (y / 100 % 10), digitChar (y / 10 % 10),
    digitChar (y % 10)]

/-- Embedding of `dt.strftime("%Y-%m-%d")`. -/
def formatYMD (y m d : Nat) : String :=
  ⟨yearChars y ++ '-' :: (pad2 m ++ '-' :: pad2 d)⟩

/-- The format list of `_normalize_date`, in source order. -/
def dateFormats : List DateFormat :=
  [DateFormat.ymd, DateFormat.dmySlash, DateFormat.mdySlash, DateFormat.dmyDash]

/-- Embedding of `_normalize_date(date_str)` in `qr_integrity.py`. -/
def normalize_date (s : String) : String :=
  if s = "" then ""
  else
    match firstSome (fun fmt => strptime fmt s.data) dateFormats with
    | some ymd3 => formatYMD ymd3.1 ymd3.2.1 ymd3.2.2
    | none => pyStrip s

/-! ### Field-consistency checks and `verify_qr_integrity` -/

/-- Embedding of `str.upper()` (certificate ids in scope are ASCII). -/
def pyUpper (s : String) : String := s.map Char.toUpper

/-- One step of a chained `.get(key, default)`: `none` models the
`AttributeError` raised when the receiver is not a dict (caught by the
surrounding handler). -/
def dictGetD (v : JsonVal) (key : String) (dflt : JsonVal) : Option JsonVal :=
  match v with
  | JsonVal.obj fields => some ((lookupAssoc fields key).getD dflt)
  | _ => none

/-- The chain `qr_payload.get("payload", {}).get("data", {}).get(field, "")`
used by both field-consistency checks. -/
def qrDataField (qr_payload : JsonVal) (field : String) : Option JsonVal :=
  (dictGetD qr_payload "payload" (JsonVal.obj [])).bind fun p =>
    (dictGetD p "data" (JsonVal.obj [])).bind fun d =>
      dictGetD d field (JsonVal.str "")

/-- A JSON value used as a Python `str`; a non-string raises (handled as
`none`). -/
def asStr : Option JsonVal → Option String
  | some (JsonVal.str s) => some s
  | _ => none

/-- Embedding of `_check_certificate_id_match(qr_payload, extracted_fields)`
in `qr_integrity.py`; any exception in the body returns `false`. -/
def check_certificate_id_match (qr_payload : JsonVal)
    (extracted_fields : List (String × JsonVal)) : Bool :=
  match asStr (qrDataField qr_payload "certificate_id"),
      asStr (some ((lookupAssoc extracted_fields "certificate_id").getD (JsonVal.str ""))) with
  | some q, some e =>
      let qr_cert_id := pyStrip (pyUpper q)
      let extracted_cert_id := pyStrip (pyUpper e)
      qr_cert_id = extracted_cert_id && qr_cert_id ≠ ""
  | _, _ => false

/-- Embedding of `_check_issue_date_match(qr_payload, extracted_fields)` in
`qr_integrity.py`. -/
def check_issue_date_match (qr_payload : JsonVal)
    (extracted_fields : List (String × JsonVal)) : Bool :=
  match asStr (qrDataField qr_payload "issue_date"),
      asStr (some ((lookupAssoc extracted_fields "issue_date").getD (JsonVal.str ""))) with
  | some q, some e =>
      let qr_date_norm := normalize_date (pyStrip q)
      let extracted_date_norm := normalize_date (pyStrip e)
      qr_date_norm = extracted_date_norm && qr_date_norm ≠ ""
  | _, _ => false

/-- QR code integrity and signature verification result (`QRIntegrityCheck`
in `models.py`) with the decoded payload attached, same field defaults as
the pydantic model. -/
structure QRIntegrityCheck where
  qr_detected : Bool := false
  qr_decoded : Bool := false
  qr_payload : Option JsonVal := none
  signature_valid : Bool := false
  issuer_verified : Bool := false
  certificate_id_match : Bool := false
  issue_date_match : Bool := false
  error_message : Option String := none

/-- Embedding of `verify_qr_integrity(qr_data, extracted_fields)` in
`qr_integrity.py`.  The external `json.loads(qr_data)` call is abstracted
into the `parsed` argument: `none` is the `JSONDecodeError` raised on every
input string that is not valid JSON, `some v` the decoded value.  The
`if extracted_fields:` truthiness test makes an absent and an empty dict
behave identically. -/
def verify_qr_integrity (parsed : Option JsonVal)
    (extracted_fields : Option (List (String × JsonVal)))
    (institution_keys : Registry) : QRIntegrityCheck :=
  match parsed with
  | none =>
      { qr_detected := true, qr_decoded := false,
        error_message := some "Invalid JSON in QR code" }
  | some qr_payload =>
      let signature_valid := verify_qr_signature qr_payload institution_keys
      let issuer_verified := verify_issuer qr_payload institution_keys
      let field_checks :=
        match extracted_fields with
        | some ef =>
            if ef.isEmpty then (false, false)
            else (check_certificate_id_match qr_payload ef,
              check_issue_date_match qr_payload ef)
        | none => (false, false)
      { qr_detected := true, qr_decoded := true, qr_payload := some qr_payload,
        signature_valid := signature_valid, issuer_verified := issuer_verified,
        certificate_id_match := field_checks.1, issue_date_match := field_checks.2 }

/-! ### Forensic pipeline (`layer2_forensics.py`) -/

/-- Outcome of one task in `asyncio.gather(*tasks, return_exceptions=True)`:
either the detector's value or the exception it raised. -/
inductive GatherOutcome (α : Type) where
  | ok (v : α)
  | exn (msg : String)
deriving DecidableEq, Repr

/-- The image-hash dictionary computed by `_calculate_image_hashes`; a
missing entry is a `.get` miss. -/
structure ImageHashes where
  sha256 : Option String := none
  phash : Option String := none
deriving DecidableEq, Repr

/-- The seven gathered task results of `analyze_image`, plus the suspicious
regions computed afterwards (`_find_suspicious_regions` catches its own
exceptions and returns a list). -/
structure GatherResults where
  copy_move : GatherOutcome ℚ
  ela : GatherOutcome ℚ
  compression : GatherOutcome ℚ
  noise : GatherOutcome ℚ
  hashes : GatherOutcome ImageHashes
  resampling : GatherOutcome ℚ
  jpeg : GatherOutcome ℚ
  suspicious_regions : List Region
deriving DecidableEq, Repr

/-- `results[i] if not isinstance(results[i], Exception) else 0.0`. -/
def scoreOr0 : GatherOutcome ℚ → ℚ
  | GatherOutcome.ok v => v
  | GatherOutcome.exn _ => 0

/-- `results[4] if not isinstance(results[4], Exception) else {}`. -/
def hashesOrEmpty : GatherOutcome ImageHashes → ImageHashes
  | GatherOutcome.ok h => h
  | GatherOutcome.exn _ => {}

/-- Embedding of `_classify_tamper_types` in `layer2_forensics.py`. -/
def classify_tamper_types (copy_move_score ela_score compression_score
    noise_score resampling_score : ℚ) : List TamperType :=
  (if copy_move_score > 6 / 10 then [TamperType.copyMove] else []) ++
  (if ela_score > 7 / 10 then [TamperType.elaAnomaly] else []) ++
  (if compression_score > 8 / 10 then [TamperType.doubleCompression] else []) ++
  (if noise_score > 7 / 10 then [TamperType.noiseInconsistency] else []) ++
  (if resampling_score > 6 / 10 then [TamperType.resampling] else [])

/-- Embedding of `analyze_image(image, reference_hash)` in
`layer2_forensics.py`, abstracted over the image-dependent detector
outcomes: `pipeline = exn e` is an exception escaping the large `try`
(conversion failure, gather failure, …) and lands in the uncertain-report
handler; `pipeline = ok g` carries the seven gathered results.  The
`analysis_time` bookkeeping field is not modelled. -/
def analyze_image (reference_hash : Option String)
    (pipeline : GatherOutcome GatherResults) : ForensicAnalysis :=
  match pipeline with
  | GatherOutcome.exn _ => { tamper_probability := 1 / 2 }
  | GatherOutcome.ok g =>
      let copy_move_score := scoreOr0 g.copy_move
      let ela_score := scoreOr0 g.ela
      let compression_score := scoreOr0 g.compression
      let noise_score := scoreOr0 g.noise
      let hashes := hashesOrEmpty g.hashes
      let resampling_score := scoreOr0 g.resampling
      let jpeg_score := scoreOr0 g.jpeg
      let base_types := classify_tamper_types copy_move_score ela_score
        compression_score noise_score resampling_score
      let hash_match : Option Bool :=
        match reference_hash, hashes.sha256 with
        | some r, some s => if r ≠ "" && s ≠ "" then some (r = s) else none
        | _, _ => none
      let tamper_types := base_types ++
        (if hash_match = some false then [TamperType.hashMismatch] else [])
      { copy_move_score := copy_move_score,
        ela_score := ela_score,
        double_compression_score := compression_score,
        noise_analysis_score := noise_score,
        sha256_hash := hashes.sha256,
        perceptual_hash := hashes.phash,
        hash_match := hash_match,
        suspicious_regions := g.suspicious_regions,
        tamper_types := tamper_types,
        tamper_probability := calculate_tamper_probability copy_move_score
          ela_score compression_score noise_score resampling_score jpeg_score }

/-! ### Region merging (`_merge_overlapping_regions`) -/

/-- The overlap test of the merge loop, between the last merged box and the
current box. -/
def regionsOverlap (last current : Region) : Bool :=
  current.x1 ≤ last.x2 && current.y1 ≤ last.y2 &&
    current.x2 ≥ last.x1 && current.y2 ≥ last.y1

/-- The coordinatewise union of two boxes. -/
def regionUnion (last current : Region) : Region :=
  ⟨min last.x1 current.x1, min last.y1 current.y1,
    max last.x2 current.x2, max last.y2 current.y2⟩

/-- The loop of `_merge_overlapping_regions`: each box is compared against
the last merged box only. -/
def mergeGo (last : Region) (done : List Region) : List Region → List Region
  | [] => (last :: done).reverse
  | c :: cs =>
      if regionsOverlap last c then mergeGo (regionUnion last c) done cs
      else mergeGo c (last :: done) cs

/-- Embedding of `_merge_overlapping_regions(regions)` in
`layer2_forensics.py`: sort by the first coordinate (`list.sort` is stable,
as is insertion sort with `≤` on the key, so they agree), then fold the
merge loop. -/
def merge_overlapping_regions (regions : List Region) : List Region :=
  match List.insertionSort (fun a b => a.x1 ≤ b.x1) regions with
  | [] => []
  | r :: rs => mergeGo r [] rs

/-- Containment of boxes, for the coverage property of the merge. -/
def regionContains (outer inner : Region) : Prop :=
  outer.x1 ≤ inner.x1 ∧ outer.y1 ≤ inner.y1 ∧
    inner.x2 ≤ outer.x2 ∧ inner.y2 ≤ outer.y2

instance (a b : Region) : Decidable (regionContains a b) := by
  unfold regionContains
  infer_instance

/-! ### Serialization call sites of the signing and verification paths -/

/-- The serialization signed by `_sign_qr_payload` (`qr_integrity.py:218`):
`json.dumps(payload, sort_keys=True, separators=(",", ":"))`. -/
def qr_sign_serialization (payload : JsonVal) : String :=
  dumps_sorted_compact payload

/-- The serialization verified by `_verify_qr_signature`
(`qr_integrity.py:326`): identical compact sorted form. -/
def qr_verify_serialization (payload : JsonVal) : String :=
  dumps_sorted_compact payload

/-- The serialization signed by `_generate_attestation`
(`fusion_engine.py:416`): `json.dumps(payload, sort_keys=True)` with the
default whitespace separators `(", ", ": ")`. -/
def attestation_sign_serialization (payload : JsonVal) : String :=
  dumps_sorted_default payload

/-- The serialization verified by `_verify_attestation_signature`
(`public_verification.py:226`):
`json.dumps(payload, sort_keys=True, separators=(",", ":"))`. -/
def attestation_verify_serialization (payload : JsonVal) : String :=
  dumps_sorted_compact payload

/-- A minimal attestation payload of the shape built by
`_generate_attestation` (one string field suffices to expose the separator
difference). -/
def attestationDemoPayload : JsonVal :=
  JsonVal.obj [("verification_id", JsonVal.str "v1")]

/-! ## Theorems -/

/-- C1: Signature round-trip — signing any payload string with `sign_data`
and verifying the result with `verify_signature` against the returned
public key succeeds; in particular `_sign_qr_payload` followed by
`_verify_qr_signature` on the resulting signed payload yields a valid
signature, for every payload, key entry, timestamp and registry. -/
theorem signature_round_trip :
    (∀ (data : String) (k : PrivKey),
      verify_signature data (sign_data data k).1 (sign_data data k).2 = true) ∧
    (∀ (payload : JsonVal) (keys : InstitutionKeyEntry) (signed_at : String)
      (reg : Registry),
      verify_qr_signature (sign_qr_payload payload keys signed_at) reg = true) := by
  constructor
  · intro data k
    simp [sign_data, verify_signature]
  · intro payload keys signed_at reg
    simp [sign_qr_payload, verify_qr_signature, jsonGet, lookupAssoc,
      resolve_public_key, jsonTruthy, sign_data, verify_signature]

/-- C2: Tamper hard-reject precedence — whenever the tamper probability
exceeds 0.8, or the hash match is explicitly false, or at least three
tamper types are recorded, `_make_verification_decision` returns status
`Tampered` with `requires_manual_review = true`, for every risk score
(hence regardless of `overall_score` and `confidence`) and database
check. -/
theorem tamper_hard_reject (rs : RiskScore) (lr : LayerResults) (db : DbCheck)
    (h : lr.layer2_forensics.tamper_probability > 8 / 10 ∨
      lr.layer2_forensics.hash_match = some false ∨
      3 ≤ lr.layer2_forensics.tamper_types.length) :
    (make_verification_decision rs lr db).1 = VerificationStatus.tampered ∧
    (make_verification_decision rs lr db).2.1 = true := by
  have hc : check_tamper_rejection_criteria lr = true := by
    unfold check_tamper_rejection_criteria
    rcases h with h | h | h <;> simp [h]
  simp [make_verification_decision, hc]

/-- Witness for C2 at a concrete input: tamper probability 0.9 with a
perfect overall score and confidence still yields `Tampered` with forced
review. -/
theorem tamper_hard_reject_witness :
    (make_verification_decision
      { overall_score := 1, confidence := 1, risk_level := RiskLevel.low,
        risk_factors := [] }
      { layer2_forensics := { tamper_probability := 9 / 10 },
        layer3_signatures := {}, qr_integrity := {} }
      { match_found := true }).1 = VerificationStatus.tampered ∧
    (make_verification_decision
      { overall_score := 1, confidence := 1, risk_level := RiskLevel.low,
        risk_factors := [] }
      { layer2_forensics := { tamper_probability := 9 / 10 },
        layer3_signatures := {}, qr_integrity := {} }
      { match_found := true }).2.1 = true :=
  tamper_hard_reject _ _ _ (Or.inl (by norm_num))

/-- C5: Malformed scan fails closed — on any input whose JSON decoding
fails, `verify_qr_integrity` reports a detected but undecoded code with an
error message, and every verification flag stays false. -/
theorem malformed_scan_fails_closed (ef : Option (List (String × JsonVal)))
    (reg : Registry) :
    (verify_qr_integrity none ef reg).qr_detected = true ∧
    (verify_qr_integrity none ef reg).qr_decoded = false ∧
    (verify_qr_integrity none ef reg).error_message = some "Invalid JSON in QR code" ∧
    (verify_qr_integrity none ef reg).signature_valid = false ∧
    (verify_qr_integrity none ef reg).issuer_verified = false ∧
    (verify_qr_integrity none ef reg).certificate_id_match = false ∧
    (verify_qr_integrity none ef reg).issue_date_match = false := by
  refine ⟨rfl, rfl, rfl, rfl, rfl, rfl, rfl⟩

/-- C7: Tamper probability aggregation — `_calculate_tamper_probability`
is the weighted sum 0.25/0.20/0.15/0.20/0.10/0.10 capped at one, and on
detector scores in the unit interval its value stays in the unit
interval. -/
theorem tamper_probability_formula (cm ela comp noise resamp jpeg : ℚ) :
    calculate_tamper_probability cm ela comp noise resamp jpeg =
      min (25 / 100 * cm + 20 / 100 * ela + 15 / 100 * comp + 20 / 100 * noise +
        10 / 100 * resamp + 10 / 100 * jpeg) 1 ∧
    (0 ≤ cm → cm ≤ 1 → 0 ≤ ela → ela ≤ 1 → 0 ≤ comp → comp ≤ 1 →
      0 ≤ noise → noise ≤ 1 → 0 ≤ resamp → resamp ≤ 1 → 0 ≤ jpeg → jpeg ≤ 1 →
      0 ≤ calculate_tamper_probability cm ela comp noise resamp jpeg ∧
        calculate_tamper_probability cm ela comp noise resamp jpeg ≤ 1) := by
  constructor
  · unfold calculate_tamper_probability
    congr 1
    ring
  · intro h1 h2 h3 h4 h5 h6 h7 h8 h9 h10 h11 h12
    unfold calculate_tamper_probability
    constructor
    · apply le_min
      · nlinarith
      · norm_num
    · exact min_le_right _ _

/-- Witness for C7 at concrete scores: all detectors at their maximum give
a tamper probability inside the unit interval. -/
theorem tamper_probability_formula_witness :
    0 ≤ calculate_tamper_probability 1 1 1 1 1 1 ∧
      calculate_tamper_probability 1 1 1 1 1 1 ≤ 1 :=
  (tamper_probability_formula 1 1 1 1 1 1).2 (by norm_num) (by norm_num)
    (by norm_num) (by norm_num) (by norm_num) (by norm_num) (by norm_num)
    (by norm_num) (by norm_num) (by norm_num) (by norm_num) (by norm_num)

/-- C4: Detector failure degradation — replacing any single failed detector
outcome by its neutral default (score 0.0, hashes by the empty dict) does
not change the analysis (so the remaining detectors are still used
unchanged), and a failure of the whole pipeline produces the uncertain
report with tamper probability 0.5 and no evidence. -/
theorem detector_failure_degradation :
    (∀ (refh : Option String) (g : GatherResults) (m : String),
      g.copy_move = GatherOutcome.exn m →
      analyze_image refh (GatherOutcome.ok g) =
        analyze_image refh (GatherOutcome.ok { g with copy_move := GatherOutcome.ok 0 })) ∧
    (∀ (refh : Option String) (g : GatherResults) (m : String),
      g.ela = GatherOutcome.exn m →
      analyze_image refh (GatherOutcome.ok g) =
        analyze_image refh (GatherOutcome.ok { g with ela := GatherOutcome.ok 0 })) ∧
    (∀ (refh : Option String) (g : GatherResults) (m : String),
      g.compression = GatherOutcome.exn m →
      analyze_image refh (GatherOutcome.ok g) =
        analyze_image refh (GatherOutcome.ok { g with compression := GatherOutcome.ok 0 })) ∧
    (∀ (refh : Option String) (g : GatherResults) (m : String),
      g.noise = GatherOutcome.exn m →
      analyze_image refh (GatherOutcome.ok g) =
        analyze_image refh (GatherOutcome.ok { g with noise := GatherOutcome.ok 0 })) ∧
    (∀ (refh : Option String) (g : GatherResults) (m : String),
      g.hashes = GatherOutcome.exn m →
      analyze_image refh (GatherOutcome.ok g) =
        analyze_image refh (GatherOutcome.ok { g with hashes := GatherOutcome.ok {} })) ∧
    (∀ (refh : Option String) (g : GatherResults) (m : String),
      g.resampling = GatherOutcome.exn m →
      analyze_image refh (GatherOutcome.ok g) =
        analyze_image refh (GatherOutcome.ok { g with resampling := GatherOutcome.ok 0 })) ∧
    (∀ (refh : Option String) (g : GatherResults) (m : String),
      g.jpeg = GatherOutcome.exn m →
      analyze_image refh (GatherOutcome.ok g) =
        analyze_image refh (GatherOutcome.ok { g with jpeg := GatherOutcome.ok 0 })) ∧
    (∀ (refh : Option String) (m : String),
      analyze_image refh (GatherOutcome.exn m) = { tamper_probability := 1 / 2 }) := by
  refine ⟨?_, ?_, ?_, ?_, ?_, ?_, ?_, ?_⟩ <;>
    first
      | (intro refh g m h; simp [analyze_image, h, scoreOr0, hashesOrEmpty])
      | (intro refh m; rfl)

/-- Witness for C4 at a concrete input: a failed copy-move detector is the
same as a zero copy-move score, and a failed pipeline yields the uncertain
report. -/
theorem detector_failure_degradation_witness :
    analyze_image none (GatherOutcome.ok
      { copy_move := GatherOutcome.exn "cv2 error", ela := GatherOutcome.ok (1 / 2),
        compression := GatherOutcome.ok 0, noise := GatherOutcome.ok 0,
        hashes := GatherOutcome.ok {}, resampling := GatherOutcome.ok 0,
        jpeg := GatherOutcome.ok 0, suspicious_regions := [] }) =
    analyze_image none (GatherOutcome.ok
      { copy_move := GatherOutcome.ok 0, ela := GatherOutcome.ok (1 / 2),
        compression := GatherOutcome.ok 0, noise := GatherOutcome.ok 0,
        hashes := GatherOutcome.ok {}, resampling := GatherOutcome.ok 0,
        jpeg := GatherOutcome.ok 0, suspicious_regions := [] }) ∧
    analyze_image none (GatherOutcome.exn "pipeline error") =
      { tamper_probability := 1 / 2 } :=
  ⟨detector_failure_degradation.1 none _ "cv2 error" rfl,
    detector_failure_degradation.2.2.2.2.2.2.2 none "pipeline error"⟩

/-- C3 (failing path): the QR signing and verification paths serialize
payloads byte-identically, but the attestation generated by the fusion
engine signs `json.dumps(payload, sort_keys=True)` with the whitespace
default separators, while the attestation verifier re-serializes the same
payload compactly — the bytes differ on every nonempty payload, shown here
at a concrete one, and the signature produced at signing time therefore
fails verification. -/
theorem attestation_serialization_divergence :
    (∀ payload : JsonVal, qr_sign_serialization payload = qr_verify_serialization payload) ∧
    attestation_sign_serialization attestationDemoPayload =
      "\x7b\"verification_id\": \"v1\"\x7d" ∧
    attestation_verify_serialization attestationDemoPayload =
      "\x7b\"verification_id\":\"v1\"\x7d" ∧
    attestation_sign_serialization attestationDemoPayload ≠
      attestation_verify_serialization attestationDemoPayload ∧
    verify_signature (attestation_verify_serialization attestationDemoPayload)
      (sign_data (attestation_sign_serialization attestationDemoPayload) ⟨0⟩).1
      (sign_data (attestation_sign_serialization attestationDemoPayload) ⟨0⟩).2 = false := by
  have hsign : attestation_sign_serialization attestationDemoPayload =
      "\x7b\"verification_id\": \"v1\"\x7d" := by
    simp [attestation_sign_serialization, attestationDemoPayload, dumps_sorted_default,
      dumpVal, dumpFields, sortPairs, List.insertionSort, List.orderedInsert,
      jsonQuote, escapeChar, joinStr, String.singleton]
    rfl
  have hverify : attestation_verify_serialization attestationDemoPayload =
      "\x7b\"verification_id\":\"v1\"\x7d" := by
    simp [attestation_verify_serialization, attestationDemoPayload, dumps_sorted_compact,
      dumpVal, dumpFields, sortPairs, List.insertionSort, List.orderedInsert,
      jsonQuote, escapeChar, joinStr, String.singleton]
    rfl
  refine ⟨fun payload => rfl, hsign, hverify, ?_, ?_⟩
  · rw [hsign, hverify]
    decide
  · rw [hsign, hverify]
    simp [sign_data, verify_signature]

/-- Every status rank is at most the rank of `Verified`. -/
lemma statusRank_le_two (v : VerificationStatus) : statusRank v ≤ 2 := by
  cases v <;> simp [statusRank]

/-- C8: Decision monotonicity — with the layer results, database check,
confidence and risk factors held fixed and neither hard-reject rule
firing, a larger overall score never yields a strictly less-approved
status, under `Verified > RequiresReview > Failed`. -/
theorem decision_monotone (rs1 rs2 : RiskScore) (lr : LayerResults) (db : DbCheck)
    (hT : check_tamper_rejection_criteria lr = false)
    (hS : check_signature_rejection_criteria lr = false)
    (hconf : rs1.confidence = rs2.confidence)
    (hrf : rs1.risk_factors = rs2.risk_factors)
    (hs : rs1.overall_score ≤ rs2.overall_score) :
    statusRank (make_verification_decision rs1 lr db).1 ≤
      statusRank (make_verification_decision rs2 lr db).1 := by
  unfold make_verification_decision
  rw [hT, hS]
  simp only [Bool.false_eq_true, if_false]
  by_cases h2a : rs2.overall_score ≥ autoApproveThreshold ∧ rs2.confidence ≥ 8 / 10
  · rw [if_pos h2a]
    by_cases hrf2 : rs2.risk_factors = []
    · rw [if_pos hrf2]
      simpa [statusRank] using statusRank_le_two _
    · rw [if_neg hrf2]
      split_ifs <;> simp_all [statusRank]
  · rw [if_neg h2a]
    have h1a : ¬(rs1.overall_score ≥ autoApproveThreshold ∧ rs1.confidence ≥ 8 / 10) := by
      intro hc
      exact h2a ⟨le_trans hc.1 hs, hconf ▸ hc.2⟩
    rw [if_neg h1a]
    by_cases h1r : rs1.overall_score ≤ autoRejectThreshold
    · rw [if_pos h1r]
      split_ifs <;> simp [statusRank]
    · rw [if_neg h1r]
      have h2r : ¬rs2.overall_score ≤ autoRejectThreshold := fun hc => h1r (le_trans hs hc)
      rw [if_neg h2r]

/-- Witness for C8 at concrete inputs: raising the overall score from 0.2
to 0.9 (same confidence, no risk factors, clean layers) does not lower the
rank of the decision. -/
theorem decision_monotone_witness :
    statusRank (make_verification_decision
      { overall_score := 2 / 10, confidence := 9 / 10, risk_level := RiskLevel.low,
        risk_factors := [] }
      { layer2_forensics := {}, layer3_signatures := { seals_detected := 1 },
        qr_integrity := {} }
      { match_found := true }).1 ≤
    statusRank (make_verification_decision
      { overall_score := 9 / 10, confidence := 9 / 10, risk_level := RiskLevel.low,
        risk_factors := [] }
      { layer2_forensics := {}, layer3_signatures := { seals_detected := 1 },
        qr_integrity := {} }
      { match_found := true }).1 :=
  decision_monotone _ _ _ _
    (by norm_num [check_tamper_rejection_criteria]; simp)
    (by simp [check_signature_rejection_criteria]) rfl rfl (by norm_num)

/-- C6: Issuer trust is distinct from cryptographic validity — when the
decoded payload's issuer id is unregistered, `_verify_issuer` reports
`false` whatever the signature outcome; and when the signed payload
carries no (truthy) public key and the issuer has no registered key,
`_verify_qr_signature` reports `false` (an unknown key is never treated
as valid). -/
theorem issuer_trust_distinct :
    (∀ (qr : JsonVal) (reg : Registry),
      (∀ s : String,
        jsonGet ((jsonGet qr "payload").getD (JsonVal.obj [])) "issuer_id" =
          some (JsonVal.str s) → lookupAssoc reg s = none) →
      verify_issuer qr reg = false) ∧
    (∀ (qr : JsonVal) (reg : Registry),
      (∀ v : JsonVal, jsonGet qr "public_key" = some v → jsonTruthy v = false) →
      (∀ (p : JsonVal) (s : String), jsonGet qr "payload" = some p →
        jsonGet p "issuer_id" = some (JsonVal.str s) → lookupAssoc reg s = none) →
      verify_qr_signature qr reg = false) := by
  constructor
  · intro qr reg h
    unfold verify_issuer
    cases hid : jsonGet ((jsonGet qr "payload").getD (JsonVal.obj [])) "issuer_id" with
    | none => simp [hid]
    | some v =>
        cases v with
        | str s => simp [hid, h s hid]
        | null => simp [hid]
        | bool b => simp [hid]
        | num n => simp [hid]
        | arr items => simp [hid]
        | obj fields => simp [hid]
        | sigBlob k m => simp [hid]
        | pubKeyBlob k => simp [hid]
  · intro qr reg hpk hiss
    unfold verify_qr_signature
    cases hsig : jsonGet qr "signature" with
    | none => simp [hsig]
    | some signature =>
        cases hpay : jsonGet qr "payload" with
        | none => simp [hsig, hpay]
        | some payload =>
            have hfb :
                (match jsonGet payload "issuer_id" with
                  | some (JsonVal.str issuer_id) =>
                      match lookupAssoc reg issuer_id with
                      | some entry => some entry.public_key
                      | none => none
                  | _ => none) = (none : Option JsonVal) := by
              cases hid : jsonGet payload "issuer_id" with
              | none => rfl
              | some v =>
                  cases v with
                  | str s => simp [hiss payload s hpay hid]
                  | null => rfl
                  | bool b => rfl
                  | num n => rfl
                  | arr items => rfl
                  | obj fields => rfl
                  | sigBlob k m => rfl
                  | pubKeyBlob k => rfl
            have hres : resolve_public_key qr payload reg = none := by
              unfold resolve_public_key
              cases hk : jsonGet qr "public_key" with
              | none => simp [hfb]
              | some pk => simp [hpk pk hk, hfb]
            simp [hsig, hpay, hres]

/-- Witness for C6 at concrete inputs: a payload signed for the
unregistered issuer `ghost-uni` against an empty registry verifies
cryptographically yet fails the issuer check, and a signed payload
lacking a public key fails signature verification outright. -/
theorem issuer_trust_distinct_witness :
    verify_issuer
      (sign_qr_payload (JsonVal.obj [("issuer_id", JsonVal.str "ghost-uni")])
        { private_key := ⟨7⟩, public_key := JsonVal.pubKeyBlob 7, key_id := "k7" } "t0")
      [] = false ∧
    verify_qr_signature
      (sign_qr_payload (JsonVal.obj [("issuer_id", JsonVal.str "ghost-uni")])
        { private_key := ⟨7⟩, public_key := JsonVal.pubKeyBlob 7, key_id := "k7" } "t0")
      [] = true ∧
    verify_qr_signature
      (JsonVal.obj
        [("payload", JsonVal.obj [("issuer_id", JsonVal.str "ghost-uni")]),
         ("signature", JsonVal.sigBlob 7 "m")])
      [] = false := by
  refine ⟨issuer_trust_distinct.1 _ [] (fun s _ => rfl), ?_, ?_⟩
  · simp [sign_qr_payload, verify_qr_signature, jsonGet, lookupAssoc,
      resolve_public_key, jsonTruthy, sign_data, verify_signature]
  · exact issuer_trust_distinct.2 _ []
      (fun v hv => by simp [jsonGet, lookupAssoc] at hv)
      (fun p s hp hi => rfl)

/-- C9 (counterexample): `_merge_overlapping_regions` only compares the
current box against the last merged box, so a later box can merge with an
earlier non-adjacent one and the grown union can overlap a box already
emitted.  On the concrete input below the output contains two boxes that
overlap (the second even contains the first), refuting the claim that no
two output boxes overlap. -/
theorem merge_overlap_counterexample :
    merge_overlapping_regions [⟨0, 0, 2, 2⟩, ⟨0, 10, 2, 12⟩, ⟨1, 0, 3, 12⟩] =
      [⟨0, 0, 2, 2⟩, ⟨0, 0, 3, 12⟩] ∧
    regionsOverlap ⟨0, 0, 2, 2⟩ ⟨0, 0, 3, 12⟩ = true ∧
    regionContains ⟨0, 0, 3, 12⟩ ⟨0, 0, 2, 2⟩ := by
  refine ⟨by decide, by decide, by decide⟩

/-- Containment is reflexive. -/
lemma regionContains_refl (a : Region) : regionContains a a :=
  ⟨le_refl _, le_refl _, le_refl _, le_refl _⟩

/-- Containment is transitive. -/
lemma regionContains_trans {a b c : Region} (h1 : regionContains a b)
    (h2 : regionContains b c) : regionContains a c :=
  ⟨le_trans h1.1 h2.1, le_trans h1.2.1 h2.2.1,
    le_trans h2.2.2.1 h1.2.2.1, le_trans h2.2.2.2 h1.2.2.2⟩

/-- The merge of two boxes contains the first. -/
lemma regionUnion_contains_left (a c : Region) : regionContains (regionUnion a c) a := by
  unfold regionContains regionUnion
  exact ⟨min_le_left _ _, min_le_left _ _, le_max_left _ _, le_max_left _ _⟩

/-- The merge of two boxes contains the second. -/
lemma regionUnion_contains_right (a c : Region) : regionContains (regionUnion a c) c := by
  unfold regionContains regionUnion
  exact ⟨min_le_right _ _, min_le_right _ _, le_max_right _ _, le_max_right _ _⟩

/-- Invariant of the merge loop: a box covered by the pending last box or
an already-emitted box, or still waiting in the input, is covered by some
output box. -/
lemma mergeGo_covers (todo : List Region) : ∀ (last : Region) (done : List Region)
    (b : Region),
    ((∃ c, (c = last ∨ c ∈ done) ∧ regionContains c b) ∨ b ∈ todo) →
    ∃ c ∈ mergeGo last done todo, regionContains c b := by
  induction todo with
  | nil =>
      intro last done b h
      rcases h with ⟨c, hc, hcb⟩ | hb
      · refine ⟨c, ?_, hcb⟩
        simp only [mergeGo, List.mem_reverse, List.mem_cons]
        exact hc
      · cases hb
  | cons c0 cs ih =>
      intro last done b h
      unfold mergeGo
      cases hov : regionsOverlap last c0 with
      | true =>
          simp only [if_true]
          apply ih
          rcases h with ⟨c, hc, hcb⟩ | hb
          · rcases hc with rfl | hmem
            · exact Or.inl ⟨regionUnion c c0, Or.inl rfl,
                regionContains_trans (regionUnion_contains_left _ _) hcb⟩
            · exact Or.inl ⟨c, Or.inr hmem, hcb⟩
          · rcases List.mem_cons.1 hb with rfl | hmem
            · exact Or.inl ⟨regionUnion last b, Or.inl rfl,
                regionUnion_contains_right _ _⟩
            · exact Or.inr hmem
      | false =>
          simp only [Bool.false_eq_true, if_false]
          apply ih
          rcases h with ⟨c, hc, hcb⟩ | hb
          · rcases hc with rfl | hmem
            · exact Or.inl ⟨c, Or.inr (List.mem_cons_self _ _), hcb⟩
            · exact Or.inl ⟨c, Or.inr (List.mem_cons_of_mem _ hmem), hcb⟩
          · rcases List.mem_cons.1 hb with rfl | hmem
            · exact Or.inl ⟨b, Or.inl rfl, regionContains_refl b⟩
            · exact Or.inr hmem

/-- C9 (amended): every input box is contained in some box of the output of
`_merge_overlapping_regions`; the output boxes themselves need not be
pairwise disjoint. -/
theorem merge_covers_inputs (regions : List Region) (b : Region)
    (hb : b ∈ regions) :
    ∃ c ∈ merge_overlapping_regions regions, regionContains c b := by
  have hb2 : b ∈ List.insertionSort (fun a b => a.x1 ≤ b.x1) regions :=
    ((List.perm_insertionSort _ regions).mem_iff).2 hb
  unfold merge_overlapping_regions
  cases hsort : List.insertionSort (fun a b => a.x1 ≤ b.x1) regions with
  | nil =>
      rw [hsort] at hb2
      cases hb2
  | cons r rs =>
      rw [hsort] at hb2
      rcases List.mem_cons.1 hb2 with rfl | hmem
      · exact mergeGo_covers rs b [] b (Or.inl ⟨b, Or.inl rfl, regionContains_refl b⟩)
      · exact mergeGo_covers rs r [] b (Or.inr hmem)

/-- Witness for the amended C9 at a concrete input: the middle input box of
the counterexample list is covered by an output box. -/
theorem merge_covers_inputs_witness :
    ∃ c ∈ merge_overlapping_regions [⟨0, 0, 2, 2⟩, ⟨0, 10, 2, 12⟩, ⟨1, 0, 3, 12⟩],
      regionContains c ⟨0, 10, 2, 12⟩ :=
  merge_covers_inputs _ _ (by decide)

/-- C10 (counterexample): `_normalize_date` is not idempotent.  The input
`" 2023-1-5"` fails every `strptime` format because of its leading space,
so the first normalization only strips it; the stripped string then parses
under `%Y-%m-%d` and the second normalization reformats it with a padded
month and day. -/
theorem normalize_date_not_idempotent :
    normalize_date " 2023-1-5" = "2023-1-5" ∧
    normalize_date (normalize_date " 2023-1-5") = "2023-01-05" ∧
    normalize_date (normalize_date " 2023-1-5") ≠ normalize_date " 2023-1-5" := by
  refine ⟨by decide, by decide, by decide⟩

/-- The digit value of a rendered digit. -/
lemma digitVal_digitChar : ∀ k, k < 10 → digitVal (digitChar k) = k := by decide

/-- Rendered digits are digits. -/
lemma isDigitChar_digitChar : ∀ k, k < 10 → isDigitChar (digitChar k) = true := by decide

/-- Rendered digits are not the dash literal. -/
lemma digitChar_ne_dash : ∀ k, k < 10 → digitChar k ≠ '-' := by decide

/-- Rendered digits are not the slash literal. -/
lemma digitChar_ne_slash : ∀ k, k < 10 → digitChar k ≠ '/' := by decide

/-- Rendered digits are not whitespace. -/
lemma isSpaceChar_digitChar : ∀ k, k < 10 → isSpaceChar (digitChar k) = false := by decide

/-- Days in a month never exceed 31. -/
lemma daysInMonth_le (y m : Nat) : daysInMonth y m ≤ 31 := by
  unfold daysInMonth
  split_ifs <;> omega

/-- The rendered year is never the empty list. -/
lemma yearChars_ne_nil (y : Nat) : yearChars y ≠ [] := by
  unfold yearChars
  split_ifs <;> simp

/-- The `%Y` pattern recovers a four-digit rendered year exactly. -/
lemma yearMatches_year (y : Nat) (h1 : 1000 ≤ y) (h2 : y ≤ 9999) (r : List Char) :
    yearMatches (yearChars y ++ r) = some (y, r) := by
  have hy : yearChars y = [digitChar (y / 1000), digitChar (y / 100 % 10),
      digitChar (y / 10 % 10), digitChar (y % 10)] := by
    unfold yearChars
    rw [if_neg (by omega), if_neg (by omega), if_neg (by omega)]
  rw [hy]
  have e1 : isDigitChar (digitChar (y / 1000)) = true :=
    isDigitChar_digitChar _ (by omega)
  have e2 : isDigitChar (digitChar (y / 100 % 10)) = true :=
    isDigitChar_digitChar _ (by omega)
  have e3 : isDigitChar (digitChar (y / 10 % 10)) = true :=
    isDigitChar_digitChar _ (by omega)
  have e4 : isDigitChar (digitChar (y % 10)) = true :=
    isDigitChar_digitChar _ (by omega)
  have v1 : digitVal (digitChar (y / 1000)) = y / 1000 :=
    digitVal_digitChar _ (by omega)
  have v2 : digitVal (digitChar (y / 100 % 10)) = y / 100 % 10 :=
    digitVal_digitChar _ (by omega)
  have v3 : digitVal (digitChar (y / 10 % 10)) = y / 10 % 10 :=
    digitVal_digitChar _ (by omega)
  have v4 : digitVal (digitChar (y % 10)) = y % 10 :=
    digitVal_digitChar _ (by omega)
  simp only [List.cons_append, List.nil_append, yearMatches, e1, e2, e3, e4,
    Bool.and_self, if_true]
  rw [v1, v2, v3, v4]
  simp only [Option.some.injEq, Prod.mk.injEq]
  exact ⟨by omega, trivial⟩

/-- The two-digit zero-padded month is the first `%m` candidate. -/
lemma monthMatches_pad2 (m : Nat) (h1 : 1 ≤ m) (h2 : m ≤ 12) (r : List Char) :
    ∃ t, monthMatches (pad2 m ++ r) = (m, r) :: t := by
  interval_cases m <;> exact ⟨_, rfl⟩

/-- The two-digit zero-padded day is the first `%d` candidate. -/
lemma dayMatches_pad2 (d : Nat) (h1 : 1 ≤ d) (h2 : d ≤ 31) (r : List Char) :
    ∃ t, dayMatches (pad2 d ++ r) = (d, r) :: t := by
  interval_cases d <;> exact ⟨_, rfl⟩

/-- `%Y-%m-%d` reparses a formatted date to the same numbers. -/
lemma matchYMD_format (y m d : Nat) (hy1 : 1000 ≤ y) (hy2 : y ≤ 9999)
    (hm1 : 1 ≤ m) (hm2 : m ≤ 12) (hd1 : 1 ≤ d) (hd2 : d ≤ 31) :
    matchYMD (yearChars y ++ '-' :: (pad2 m ++ '-' :: pad2 d)) = some (y, m, d) := by
  obtain ⟨t, ht⟩ := monthMatches_pad2 m hm1 hm2 ('-' :: pad2 d)
  obtain ⟨t2, ht2⟩ := dayMatches_pad2 d hd1 hd2 []
  rw [List.append_nil] at ht2
  unfold matchYMD
  rw [yearMatches_year y hy1 hy2]
  simp only [expectChar, if_pos]
  rw [ht]
  simp only [firstSome, expectChar, if_pos]
  rw [ht2]
  simp [firstSome]

/-- A successful `strptime` yields a `datetime`-valid triple. -/
lemma strptime_valid (fmt : DateFormat) (s : List Char) (x : Nat × Nat × Nat)
    (h : strptime fmt s = some x) : validDate x.1 x.2.1 x.2.2 = true := by
  unfold strptime at h
  cases hr : (match fmt with
    | DateFormat.ymd => matchYMD s
    | DateFormat.dmySlash => matchDMYslash s
    | DateFormat.mdySlash => matchMDYslash s
    | DateFormat.dmyDash => matchDMYdash s) with
  | none => rw [hr] at h; cases h
  | some z =>
      rw [hr] at h
      by_cases hv : validDate z.1 z.2.1 z.2.2 = true
      · simp only [hv, if_true, Option.some.injEq] at h
        rw [← h]
        exact hv
      · simp only [Bool.not_eq_true] at hv
        simp only [hv, Bool.false_eq_true, if_false] at h
        simp at h

/-- A successful `firstSome` comes from a successful member. -/
lemma firstSome_eq_some {α β : Type} {f : α → Option β} {l : List α} {b : β}
    (h : firstSome f l = some b) : ∃ a ∈ l, f a = some b := by
  induction l with
  | nil => cases h
  | cons x xs ih =>
      cases hfx : f x with
      | some r =>
          simp only [firstSome, hfx] at h
          exact ⟨x, List.mem_cons_self _ _, hfx.trans h⟩
      | none =>
          simp only [firstSome, hfx] at h
          obtain ⟨a, ha, hfa⟩ := ih h
          exact ⟨a, List.mem_cons_of_mem _ ha, hfa⟩

/-- If every alternative fails, the backtracking match fails. -/
lemma firstSome_eq_none {α β : Type} {f : α → Option β} {l : List α}
    (h : ∀ a ∈ l, f a = none) : firstSome f l = none := by
  induction l with
  | nil => rfl
  | cons x xs ih =>
      unfold firstSome
      rw [h x (List.mem_cons_self _ _)]
      exact ih fun a ha => h a (List.mem_cons_of_mem _ ha)

/-- Every `%d` candidate consumes one or two characters. -/
lemma dayMatches_tails {p : Nat × List Char} {c1 c2 : Char} {rest : List Char}
    (hp : p ∈ dayMatches (c1 :: c2 :: rest)) : p.2 = rest ∨ p.2 = c2 :: rest := by
  unfold dayMatches at hp
  simp only [List.mem_append] at hp
  rcases hp with (hp | hp) | hp
  · split at hp
    · simp only [List.mem_singleton] at hp
      rw [hp]
      exact Or.inl rfl
    · simp at hp
  · split at hp
    · simp only [List.mem_singleton] at hp
      rw [hp]
      exact Or.inr rfl
    · simp at hp
  · split at hp
    · simp only [List.mem_singleton] at hp
      rw [hp]
      exact Or.inl rfl
    · simp at hp

/-- Every `%m` candidate consumes one or two characters. -/
lemma monthMatches_tails {p : Nat × List Char} {c1 c2 : Char} {rest : List Char}
    (hp : p ∈ monthMatches (c1 :: c2 :: rest)) : p.2 = rest ∨ p.2 = c2 :: rest := by
  unfold monthMatches at hp
  simp only [List.mem_append] at hp
  rcases hp with hp | hp
  · split at hp
    · simp only [List.mem_singleton] at hp
      rw [hp]
      exact Or.inl rfl
    · simp at hp
  · split at hp
    · simp only [List.mem_singleton] at hp
      rw [hp]
      exact Or.inr rfl
    · simp at hp

/-- A failed year field fails the whole `%Y-%m-%d` match. -/
lemma matchYMD_none_of_year {s : List Char} (h : yearMatches s = none) :
    matchYMD s = none := by
  unfold matchYMD
  rw [h]

/-- `%Y` fails when the second character is the dash. -/
lemma yearMatches_fail_pos2 (c1 c3 c4 : Char) (r : List Char) :
    yearMatches (c1 :: '-' :: c3 :: c4 :: r) = none := by
  have hd : isDigitChar '-' = false := rfl
  simp [yearMatches, hd]

/-- `%Y` fails when the third character is the dash. -/
lemma yearMatches_fail_pos3 (c1 c2 c4 : Char) (r : List Char) :
    yearMatches (c1 :: c2 :: '-' :: c4 :: r) = none := by
  have hd : isDigitChar '-' = false := rfl
  simp [yearMatches, hd]

/-- `%Y` fails when the fourth character is the dash. -/
lemma yearMatches_fail_pos4 (c1 c2 c3 : Char) (r : List Char) :
    yearMatches (c1 :: c2 :: c3 :: '-' :: r) = none := by
  have hd : isDigitChar '-' = false := rfl
  simp [yearMatches, hd]

/-- `%d/%m/%Y` fails when neither the second nor the third character is a
slash (the day field consumes one or two characters, then a slash literal
is required). -/
lemma matchDMYslash_fail (c1 c2 c3 : Char) (rest : List Char)
    (h2 : c2 ≠ '/') (h3 : c3 ≠ '/') :
    matchDMYslash (c1 :: c2 :: c3 :: rest) = none := by
  unfold matchDMYslash
  apply firstSome_eq_none
  intro dc hdc
  rcases dayMatches_tails hdc with h | h
  · rw [h]
    simp [expectChar, h3]
  · rw [h]
    simp [expectChar, h2]

/-- `%m/%d/%Y` fails in the same situation. -/
lemma matchMDYslash_fail (c1 c2 c3 : Char) (rest : List Char)
    (h2 : c2 ≠ '/') (h3 : c3 ≠ '/') :
    matchMDYslash (c1 :: c2 :: c3 :: rest) = none := by
  unfold matchMDYslash
  apply firstSome_eq_none
  intro mc hmc
  rcases monthMatches_tails hmc with h | h
  · rw [h]
    simp [expectChar, h3]
  · rw [h]
    simp [expectChar, h2]

/-- Inside `%d-%m-%Y`, once the day and its dash are consumed, the
remaining five characters `M1 M2 - D1 D2` cannot complete the match: the
two-digit month leaves only two characters for the four-digit year, and
the one-digit month is not followed by a dash. -/
lemma dmyDash_month_fail (v : Nat) (M1 M2 D1 D2 : Char) (hM2 : M2 ≠ '-') :
    firstSome (fun mc =>
      match expectChar '-' mc.2 with
      | some r2 =>
          match yearMatches r2 with
          | some yr => if yr.2 = [] then some (yr.1, mc.1, v) else none
          | none => none
      | none => none) (monthMatches [M1, M2, '-', D1, D2]) = none := by
  apply firstSome_eq_none
  intro mc hmc
  have hy2 : yearMatches [D1, D2] = none := rfl
  rcases monthMatches_tails hmc with h | h
  · rw [h]
    simp [expectChar, hy2]
  · rw [h]
    simp [expectChar, hM2]

/-- `%d-%m-%Y` fails on a formatted date with a one-digit year. -/
lemma matchDMYdash_fail1 (a M1 M2 D1 D2 : Char) (hM1 : M1 ≠ '-') (hM2 : M2 ≠ '-') :
    matchDMYdash [a, '-', M1, M2, '-', D1, D2] = none := by
  unfold matchDMYdash
  apply firstSome_eq_none
  intro dc hdc
  rcases dayMatches_tails hdc with h | h
  · rw [h]
    simp [expectChar, hM1]
  · rw [h]
    have he : expectChar '-' ('-' :: [M1, M2, '-', D1, D2]) =
        some [M1, M2, '-', D1, D2] := rfl
    rw [he]
    exact dmyDash_month_fail dc.1 M1 M2 D1 D2 hM2

/-- `%d-%m-%Y` fails on a formatted date with a two-digit year. -/
lemma matchDMYdash_fail2 (a b M1 M2 D1 D2 : Char) (hb : b ≠ '-') (hM2 : M2 ≠ '-') :
    matchDMYdash [a, b, '-', M1, M2, '-', D1, D2] = none := by
  unfold matchDMYdash
  apply firstSome_eq_none
  intro dc hdc
  rcases dayMatches_tails hdc with h | h
  · rw [h]
    have he : expectChar '-' ('-' :: [M1, M2, '-', D1, D2]) =
        some [M1, M2, '-', D1, D2] := rfl
    rw [he]
    exact dmyDash_month_fail dc.1 M1 M2 D1 D2 hM2
  · rw [h]
    simp [expectChar, hb]

/-- `%d-%m-%Y` fails on a formatted date with a three-digit year. -/
lemma matchDMYdash_fail3 (a b c M1 M2 D1 D2 : Char) (hb : b ≠ '-') (hc : c ≠ '-') :
    matchDMYdash [a, b, c, '-', M1, M2, '-', D1, D2] = none := by
  unfold matchDMYdash
  apply firstSome_eq_none
  intro dc hdc
  rcases dayMatches_tails hdc with h | h
  · rw [h]
    simp [expectChar, hc]
  · rw [h]
    simp [expectChar, hb]

/-- On a formatted date whose year rendered to fewer than four digits, all
four `strptime` formats fail. -/
lemma tryFormats_small_fail (y m d : Nat) (hy : y < 1000) (hm : m ≤ 12)
    (_hd : d ≤ 31) :
    firstSome (fun fmt => strptime fmt (formatYMD y m d).data) dateFormats = none := by
  have hM1 : digitChar (m / 10) ≠ '-' := digitChar_ne_dash _ (by omega)
  have hM2 : digitChar (m % 10) ≠ '-' := digitChar_ne_dash _ (by omega)
  have hM1s : digitChar (m / 10) ≠ '/' := digitChar_ne_slash _ (by omega)
  have hds : ('-' : Char) ≠ '/' := by decide
  have hstep : ∀ L : List Char, matchYMD L = none → matchDMYslash L = none →
      matchMDYslash L = none → matchDMYdash L = none →
      firstSome (fun fmt => strptime fmt L) dateFormats = none := by
    intro L h1 h2 h3 h4
    have s1 : strptime DateFormat.ymd L = none := by simp [strptime, h1]
    have s2 : strptime DateFormat.dmySlash L = none := by simp [strptime, h2]
    have s3 : strptime DateFormat.mdySlash L = none := by simp [strptime, h3]
    have s4 : strptime DateFormat.dmyDash L = none := by simp [strptime, h4]
    simp [dateFormats, firstSome, s1, s2, s3, s4]
  rcases Nat.lt_or_ge y 10 with hy10 | hy10
  · have hl : (formatYMD y m d).data = [digitChar y, '-', digitChar (m / 10),
        digitChar (m % 10), '-', digitChar (d / 10), digitChar (d % 10)] := by
      show yearChars y ++ '-' :: (pad2 m ++ '-' :: pad2 d) = _
      unfold yearChars
      rw [if_pos hy10]
      rfl
    rw [hl]
    exact hstep _
      (matchYMD_none_of_year (yearMatches_fail_pos2 _ _ _ _))
      (matchDMYslash_fail _ _ _ _ hds hM1s)
      (matchMDYslash_fail _ _ _ _ hds hM1s)
      (matchDMYdash_fail1 _ _ _ _ _ hM1 hM2)
  · rcases Nat.lt_or_ge y 100 with hy100 | hy100
    · have hb : digitChar (y % 10) ≠ '-' := digitChar_ne_dash _ (by omega)
      have hbs : digitChar (y % 10) ≠ '/' := digitChar_ne_slash _ (by omega)
      have hl : (formatYMD y m d).data = [digitChar (y / 10), digitChar (y % 10),
          '-', digitChar (m / 10), digitChar (m % 10), '-', digitChar (d / 10),
          digitChar (d % 10)] := by
        show yearChars y ++ '-' :: (pad2 m ++ '-' :: pad2 d) = _
        unfold yearChars
        rw [if_neg (by omega), if_pos hy100]
        rfl
      rw [hl]
      exact hstep _
        (matchYMD_none_of_year (yearMatches_fail_pos3 _ _ _ _))
        (matchDMYslash_fail _ _ _ _ hbs hds)
        (matchMDYslash_fail _ _ _ _ hbs hds)
        (matchDMYdash_fail2 _ _ _ _ _ _ hb hM2)
    · have hb : digitChar (y / 10 % 10) ≠ '-' := digitChar_ne_dash _ (by omega)
      have hbs : digitChar (y / 10 % 10) ≠ '/' := digitChar_ne_slash _ (by omega)
      have hc : digitChar (y % 10) ≠ '-' := digitChar_ne_dash _ (by omega)
      have hcs : digitChar (y % 10) ≠ '/' := digitChar_ne_slash _ (by omega)
      have hl : (formatYMD y m d).data = [digitChar (y / 100), digitChar (y / 10 % 10),
          digitChar (y % 10), '-', digitChar (m / 10), digitChar (m % 10), '-',
          digitChar (d / 10), digitChar (d % 10)] := by
        show yearChars y ++ '-' :: (pad2 m ++ '-' :: pad2 d) = _
        unfold yearChars
        rw [if_neg (by omega), if_neg (by omega), if_pos hy]
        rfl
      rw [hl]
      exact hstep _
        (matchYMD_none_of_year (yearMatches_fail_pos4 _ _ _ _))
        (matchDMYslash_fail _ _ _ _ hbs hcs)
        (matchMDYslash_fail _ _ _ _ hbs hcs)
        (matchDMYdash_fail3 _ _ _ _ _ _ _ hb hc)

/-- Stripping leaves a string with no whitespace characters unchanged. -/
lemma pyStrip_eq_self (s : String) (h : ∀ c ∈ s.data, isSpaceChar c = false) :
    pyStrip s = s := by
  have hdw : ∀ M : List Char, (∀ c ∈ M, isSpaceChar c = false) →
      M.dropWhile isSpaceChar = M := by
    intro M hM
    cases M with
    | nil => rfl
    | cons a t => simp [List.dropWhile, hM a (List.mem_cons_self _ _)]
  unfold pyStrip
  rw [hdw s.data h,
    hdw s.data.reverse (fun c hc => h c (List.mem_reverse.1 hc)),
    List.reverse_reverse]

/-- Every character of a rendered year below ten thousand is a digit. -/
lemma yearChars_digits (y : Nat) (hy : y ≤ 9999) :
    ∀ c ∈ yearChars y, ∃ k, k < 10 ∧ c = digitChar k := by
  intro c h
  unfold yearChars at h
  split_ifs at h with h1 h2 h3
  · simp only [List.mem_singleton] at h
    exact ⟨y, by omega, h⟩
  · simp only [List.mem_cons, List.not_mem_nil, or_false] at h
    rcases h with rfl | rfl
    · exact ⟨y / 10, by omega, rfl⟩
    · exact ⟨y % 10, by omega, rfl⟩
  · simp only [List.mem_cons, List.not_mem_nil, or_false] at h
    rcases h with rfl | rfl | rfl
    · exact ⟨y / 100, by omega, rfl⟩
    · exact ⟨y / 10 % 10, by omega, rfl⟩
    · exact ⟨y % 10, by omega, rfl⟩
  · simp only [List.mem_cons, List.not_mem_nil, or_false] at h
    rcases h with rfl | rfl | rfl | rfl
    · exact ⟨y / 1000, by omega, rfl⟩
    · exact ⟨y / 100 % 10, by omega, rfl⟩
    · exact ⟨y / 10 % 10, by omega, rfl⟩
    · exact ⟨y % 10, by omega, rfl⟩

/-- A formatted date contains no whitespace characters. -/
lemma formatYMD_no_space (y m d : Nat) (hy : y ≤ 9999) (hm : m ≤ 12) (hd : d ≤ 31) :
    ∀ c ∈ (formatYMD y m d).data, isSpaceChar c = false := by
  intro c hc
  have hdash : isSpaceChar '-' = false := rfl
  have hmem : c ∈ yearChars y ∨ c = '-' ∨ c ∈ pad2 m ∨ c ∈ pad2 d := by
    have hdata : (formatYMD y m d).data =
        yearChars y ++ '-' :: (pad2 m ++ '-' :: pad2 d) := rfl
    rw [hdata] at hc
    simp only [List.mem_append, List.mem_cons] at hc
    tauto
  rcases hmem with h | h | h | h
  · obtain ⟨k, hk, rfl⟩ := yearChars_digits y hy c h
    exact isSpaceChar_digitChar _ hk
  · rw [h]
    exact hdash
  · rcases List.mem_cons.1 h with rfl | h
    · exact isSpaceChar_digitChar _ (by omega)
    · rcases List.mem_cons.1 h with rfl | h
      · exact isSpaceChar_digitChar _ (by omega)
      · simp at h
  · rcases List.mem_cons.1 h with rfl | h
    · exact isSpaceChar_digitChar _ (by omega)
    · rcases List.mem_cons.1 h with rfl | h
      · exact isSpaceChar_digitChar _ (by omega)
      · simp at h

/-- A formatted `datetime`-valid date is a fixed point of
`_normalize_date`: with a four-digit year it reparses to the same numbers
under `%Y-%m-%d`, and with a shorter year every format fails and the
stripped string is returned unchanged. -/
lemma normalize_format_fixed (y m d : Nat) (hv : validDate y m d = true) :
    normalize_date (formatYMD y m d) = formatYMD y m d := by
  simp only [validDate, Bool.and_eq_true, decide_eq_true_eq] at hv
  obtain ⟨⟨⟨⟨⟨h1, h2⟩, h3⟩, h4⟩, h5⟩, h6⟩ := hv
  have hd31 : d ≤ 31 := le_trans h6 (daysInMonth_le y m)
  have hne : formatYMD y m d ≠ "" := by
    intro hcontra
    have hdata := congrArg String.data hcontra
    have hdata2 : yearChars y ++ '-' :: (pad2 m ++ '-' :: pad2 d) = [] := hdata
    exact yearChars_ne_nil y (List.append_eq_nil.1 hdata2).1
  unfold normalize_date
  rw [if_neg hne]
  rcases Nat.lt_or_ge y 1000 with hy | hy
  · rw [tryFormats_small_fail y m d hy h4 hd31]
    exact pyStrip_eq_self _ (formatYMD_no_space y m d h2 h4 hd31)
  · have hmatch : matchYMD (formatYMD y m d).data = some (y, m, d) := by
      show matchYMD (yearChars y ++ '-' :: (pad2 m ++ '-' :: pad2 d)) = _
      exact matchYMD_format y m d hy h2 h3 h4 h5 hd31
    have hvb : validDate y m d = true := by
      simp [validDate, h1, h2, h3, h4, h5, h6]
    have hs1 : strptime DateFormat.ymd (formatYMD y m d).data = some (y, m, d) := by
      simp [strptime, hmatch, hvb]
    rw [show firstSome (fun fmt => strptime fmt (formatYMD y m d).data) dateFormats =
      some (y, m, d) from by simp [dateFormats, firstSome, hs1]]

/-- C10 (amended): `_normalize_date` is idempotent on every input that
carries no leading or trailing whitespace (equivalently, on every already
stripped string); the counterexample shows the restriction is necessary. -/
theorem normalize_date_idempotent_on_stripped (s : String) (h : pyStrip s = s) :
    normalize_date (normalize_date s) = normalize_date s := by
  by_cases hs0 : s = ""
  · rw [hs0]
    rfl
  · cases htf : firstSome (fun fmt => strptime fmt s.data) dateFormats with
    | some x =>
        have h1 : normalize_date s = formatYMD x.1 x.2.1 x.2.2 := by
          simp [normalize_date, hs0, htf]
        rw [h1]
        obtain ⟨fmt, _, hf⟩ := firstSome_eq_some htf
        exact normalize_format_fixed _ _ _ (strptime_valid _ _ _ hf)
    | none =>
        have h1 : normalize_date s = s := by
          simp [normalize_date, hs0, htf, h]
        rw [h1]
        exact h1

/-- Witness for the amended C10 at a concrete input: the stripped string
`"2023-1-5"` normalizes to `"2023-01-05"`, which a second normalization
leaves unchanged. -/
theorem normalize_date_idempotent_witness :
    normalize_date (normalize_date "2023-1-5") = normalize_date "2023-1-5" :=
  normalize_date_idempotent_on_stripped "2023-1-5" (by decide)

end Newmate
